import Mathlib

/-!
Verification of the audio capture / WAV encoding extension.

This file gives a shallow embedding of the extension's background service
worker and audio conversion utilities and proves the specified properties
about them:

* the binary WAV container encoder (`convertToWav`): header layout,
  channel-minor interleaving, and 16-bit quantization;
* the tab capture acquirer (`captureTabAudio`): the bounded retry policy
  around the "active stream" conflict;
* the recording session state machine (`startRecordingFromStreamId`,
  `handleStopCapture`, `clearRecording`, `onStartup`, the message
  handlers): persistence of chunk snapshots, stop-and-collect fallback,
  storage-key cleanup, and MIME tagging.

Machine integers are modelled as `ℕ`/`ℤ` with explicit `% 2^w` where the
source can overflow; float samples are modelled as `ℚ`; the asynchronous
host callbacks are modelled as explicit parameters (an oracle for the
tab-capture host, flags for `getUserMedia` availability), and each command
handler is a pure state transformer on the worker's global state.
-/

/-! ### The decoded audio buffer and the WAV encoder -/

/-- A decoded audio buffer as `convertToWav` reads it: a sample rate, a
frame count (`audioBuffer.length`), and the per-channel float sample
arrays (`audioBuffer.getChannelData`), floats modelled as rationals. -/
structure AudioBuffer where
  sampleRate : ℕ
  length : ℕ
  channels : List (List ℚ)

/-- `Math.max(-1, Math.min(1, s))` on a float sample. -/
def clamp (x : ℚ) : ℚ := max (-1) (min 1 x)

/-- Storing a float into an `Int16Array` truncates toward zero
(ECMAScript `ToInt16`); on negatives that is the ceiling, on
non-negatives the floor. -/
def truncToZero (q : ℚ) : ℤ := if q < 0 then ⌈q⌉ else ⌊q⌋

/-- The 16-bit quantization step of `convertToWav`:
`const s = Math.max(-1, Math.min(1, interleaved[i]));`
`pcm[i] = s < 0 ? s * 0x8000 : s * 0x7FFF;` (then Int16Array storage). -/
def quantize16 (x : ℚ) : ℤ :=
  if clamp x < 0 then truncToZero (clamp x * 32768) else truncToZero (clamp x * 32767)

/-- The interleaving double loop of `convertToWav`: for each frame `i`
(outer loop) and each channel (inner loop), write
`interleaved[i * numberOfChannels + channel] = getChannelData(channel)[i]`. -/
def interleave (channels : List (List ℚ)) (L : ℕ) : List ℚ :=
  (List.range L).flatMap fun i => channels.map fun ch => ch.getD i 0

/-- `DataView.setUint16(o, n, true)`: two little-endian bytes of `n % 2^16`. -/
def u16le (n : ℕ) : List ℕ := [n % 256, n / 256 % 256]

/-- `DataView.setUint32(o, n, true)`: four little-endian bytes of `n % 2^32`. -/
def u32le (n : ℕ) : List ℕ :=
  [n % 256, n / 256 % 256, n / 65536 % 256, n / 16777216 % 256]

/-- Little-endian two's-complement bytes of one 16-bit PCM sample, as the
`Int16Array` view writes them into the WAV buffer. -/
def i16le (z : ℤ) : List ℕ := u16le (z % 65536).toNat

/-- The 44-byte RIFF/WAVE header exactly as `convertToWav` writes it:
`RIFF`, total size `36 + dataSize`, `WAVE`, `fmt `, fmt sub-chunk size 16,
PCM format code 1, channel count, sample rate,
byte rate `sampleRate * numberOfChannels * 2`,
block align `numberOfChannels * 2`, bit depth 16, `data`, `dataSize`. -/
def wavHeader (numberOfChannels sampleRate dataSize : ℕ) : List ℕ :=
  [82, 73, 70, 70] ++ u32le (36 + dataSize) ++
  [87, 65, 86, 69] ++ [102, 109, 116, 32] ++
  u32le 16 ++ u16le 1 ++ u16le numberOfChannels ++ u32le sampleRate ++
  u32le (sampleRate * numberOfChannels * 2) ++ u16le (numberOfChannels * 2) ++
  u16le 16 ++ [100, 97, 116, 97] ++ u32le dataSize

/-- `convertToWav`: decode, interleave channel-minor, quantize to 16-bit
PCM, and emit the 44-byte header followed by the little-endian samples. -/
def convertToWav (buf : AudioBuffer) : List ℕ :=
  wavHeader buf.channels.length buf.sampleRate
      (((interleave buf.channels buf.length).map quantize16).length * 2) ++
    ((interleave buf.channels buf.length).map quantize16).flatMap i16le

/-- Little-endian 16-bit read at a byte offset (out-of-range bytes read 0). -/
def readU16le (bytes : List ℕ) (off : ℕ) : ℕ :=
  bytes.getD off 0 + 256 * bytes.getD (off + 1) 0

/-- Little-endian 32-bit read at a byte offset (out-of-range bytes read 0). -/
def readU32le (bytes : List ℕ) (off : ℕ) : ℕ :=
  bytes.getD off 0 + 256 * bytes.getD (off + 1) 0 +
    65536 * bytes.getD (off + 2) 0 + 16777216 * bytes.getD (off + 3) 0

/-! ### The tab-capture acquirer (`captureTabAudio`) -/

/-- One outcome of a `chrome.tabCapture.getMediaStreamId` call: the host
set `chrome.runtime.lastError`, or returned no stream id, or returned a
stream id. -/
inductive HostResult where
  | err (msg : String)
  | noId
  | ok (id : String)

/-- Character-list equality test for a leading segment. -/
def leadsWith : List Char → List Char → Bool
  | [], _ => true
  | _ :: _, [] => false
  | a :: as, b :: bs => a == b && leadsWith as bs

/-- Substring containment on character lists (JavaScript `includes`). -/
def hasSub (pat : List Char) : List Char → Bool
  | [] => pat.isEmpty
  | c :: rest => leadsWith pat (c :: rest) || hasSub pat rest

/-- `errorMsg.includes('active stream')`. -/
def containsActiveStream (msg : String) : Bool :=
  hasSub "active stream".toList msg.toList

/-- What one run of `captureTabAudio` did: the settled promise, how many
`getMediaStreamId` attempts were issued, and the `setTimeout` delay (ms)
that preceded each attempt. -/
structure AcquireOutcome where
  result : Except String String
  attemptsMade : ℕ
  delays : List ℕ

/-- `captureTabAudio`, with the host's successive `getMediaStreamId`
responses supplied by the oracle `host`: a 100 ms delay precedes attempt
0; an error mentioning "active stream" triggers one retry after a further
500 ms delay; the retry's outcome (or any other first failure) settles the
promise. -/
def captureTabAudio (host : ℕ → HostResult) : AcquireOutcome :=
  match host 0 with
  | .err msg =>
      if containsActiveStream msg then
        match host 1 with
        | .err m2 => ⟨.error m2, 2, [100, 500]⟩
        | .noId => ⟨.error "Failed to get media stream ID", 2, [100, 500]⟩
        | .ok id => ⟨.ok id, 2, [100, 500]⟩
      else ⟨.error msg, 1, [100]⟩
  | .noId => ⟨.error "Failed to get media stream ID", 1, [100]⟩
  | .ok id => ⟨.ok id, 1, [100]⟩

/-! ### The background worker state and the message handlers -/

/-- The persisted `preferences` object (only the `format` field is read by
the recording pipeline; a missing or empty `format` falls back to webm). -/
structure Prefs where
  format : Option String
deriving DecidableEq

/-- The `chrome.storage.local` area: the five recording-session keys plus
whatever other keys the store holds. -/
structure Storage where
  recordingStreamId : Option String
  recordingTabId : Option ℤ
  recordingStartTime : Option ℕ
  recordingChunks : Option (List (List ℕ))
  preferences : Option Prefs
  other : List (String × String)
deriving DecidableEq

/-- The background worker's module-level mutable state: the `isRecording`
flag, the in-memory chunk blobs (as byte lists), and the presence of a
`MediaRecorder`, a captured `MediaStream` and an `AudioContext`. -/
structure BgState where
  isRecording : Bool
  recordingChunks : List (List ℕ)
  mediaRecorder : Bool
  currentStream : Bool
  audioContext : Bool
  storage : Storage
deriving DecidableEq

/-- A freshly started worker: all module-level variables at their
initializers, over a given persisted storage area. -/
def initialState (s : Storage) : BgState :=
  ⟨false, [], false, false, false, s⟩

/-- A storage area with none of the recording keys and no other keys. -/
def emptyStorage : Storage := ⟨none, none, none, none, none, []⟩

/-- `chrome.storage.local.remove(['recordingStreamId', 'recordingTabId',
'recordingStartTime', 'recordingChunks'])` — exactly the four keys the
code lists. -/
def removeRecordingKeys (s : Storage) : Storage :=
  { s with recordingStreamId := none, recordingTabId := none,
           recordingStartTime := none, recordingChunks := none }

/-- `prefsResult.preferences?.format || 'webm'`: a missing preferences
object, a missing format field, or an empty (falsy) string all yield
`"webm"`. -/
def formatFromPrefs (p : Option Prefs) : String :=
  match p with
  | none => "webm"
  | some pr =>
      match pr.format with
      | none => "webm"
      | some f => if f = "" then "webm" else f

/-- The format → MIME mapping the handlers repeat: `ogg` maps to
`audio/ogg`, `webm` to `audio/webm`, and everything else (wav, mp3, …)
falls back to `audio/webm`. -/
def mimeForFormat (format : String) : String :=
  if format = "ogg" then "audio/ogg"
  else if format = "webm" then "audio/webm"
  else "audio/webm"

/-- `startRecordingFromStreamId`. `gumAvailable` models the
`navigator.mediaDevices.getUserMedia` feature test; `gumOk` models whether
the `getUserMedia` call succeeds. If either fails, the code stores the
stream id for the popup and sets `isRecording` without holding a stream;
on success it keeps the stream, creates the recorder, resets the chunk
list and persists the start time. Every path resolves. -/
def startRecordingFromStreamId (st : BgState) (streamId : String)
    (gumAvailable gumOk : Bool) (now : ℕ) : BgState × Except String Unit :=
  if !gumAvailable then
    ({ st with isRecording := true,
               storage := { st.storage with recordingStreamId := some streamId } },
     .ok ())
  else if !gumOk then
    ({ st with isRecording := true,
               storage := { st.storage with recordingStreamId := some streamId } },
     .ok ())
  else
    ({ st with currentStream := true, mediaRecorder := true,
               recordingChunks := [], isRecording := true,
               storage := { st.storage with recordingStartTime := some now } },
     .ok ())

/-- The recorder's `ondataavailable` callback: a non-empty payload is
appended in arrival order and the full current chunk list is re-persisted
as the `recordingChunks` snapshot. -/
def dataAvailable (st : BgState) (chunk : List ℕ) : BgState :=
  if 0 < chunk.length then
    { st with recordingChunks := st.recordingChunks ++ [chunk],
              storage := { st.storage with
                recordingChunks := some (st.recordingChunks ++ [chunk]) } }
  else st

/-- The `addRecordingChunk` message handler: if a chunk payload is present
it is wrapped in a blob, appended, and the chunk list re-persisted; the
handler always responds with success. -/
def addRecordingChunk (st : BgState) (chunk : Option (List ℕ)) : BgState × Bool :=
  match chunk with
  | some c =>
      ({ st with recordingChunks := st.recordingChunks ++ [c],
                 storage := { st.storage with
                   recordingChunks := some (st.recordingChunks ++ [c]) } },
       true)
  | none => (st, true)

/-- The `clearRecording` message handler: only when a recorder is present
and `isRecording` is set does the code stop the recorder and reset both
(the guard `if (mediaRecorder && isRecording)`); it then unconditionally
stops and drops the stream, closes the audio context, clears the
in-memory chunks and removes the four recording storage keys, and always
responds with success. -/
def clearRecording (st : BgState) : BgState × Bool :=
  let st1 :=
    if st.mediaRecorder && st.isRecording then
      { st with mediaRecorder := false, isRecording := false }
    else st
  ({ st1 with currentStream := false, audioContext := false,
              recordingChunks := [],
              storage := removeRecordingKeys st1.storage },
   true)

/-- `handleStopCapture`. With an active recorder, the `onstop` handler
builds the blob from the current chunks, snapshots the chunk list before
clearing it (`chunksToReturn`), releases the stream and audio context,
removes the four recording storage keys, and resolves with the blob — or,
when the blob is empty, retries the concatenation once from the snapshot,
and resolves null if the snapshot is empty too. Without an active
recorder, any lingering chunks are returned as a blob; otherwise the
state is cleaned and null resolved. The payload is the blob's MIME type
and bytes. -/
def handleStopCapture (st : BgState) : BgState × Option (String × List ℕ) :=
  let mime := mimeForFormat (formatFromPrefs st.storage.preferences)
  if st.mediaRecorder && st.isRecording then
    let blob := st.recordingChunks.flatten
    let chunksToReturn := st.recordingChunks
    ({ st with isRecording := false, recordingChunks := [],
               currentStream := false, audioContext := false,
               mediaRecorder := false,
               storage := removeRecordingKeys st.storage },
     if 0 < blob.length then some (mime, blob)
     else if 0 < chunksToReturn.length then some (mime, chunksToReturn.flatten)
     else none)
  else if 0 < st.recordingChunks.length then
    ({ st with recordingChunks := [], isRecording := false,
               storage := removeRecordingKeys st.storage },
     some (mime, st.recordingChunks.flatten))
  else
    ({ st with recordingChunks := [], isRecording := false,
               storage := removeRecordingKeys st.storage },
     none)

/-- The `stopCapture` message handler around `handleStopCapture`: a blob
resolves to `{success: true, audioBlob: bytes}`, a null resolution to
`{success: true, audioBlob: null}`. -/
def stopCaptureMessage (st : BgState) : BgState × Bool × Option (List ℕ) :=
  match handleStopCapture st with
  | (st2, some (_, bytes)) => (st2, true, some bytes)
  | (st2, none) => (st2, true, none)

/-- The `getRecordingState` message handler: reports
`isRecording && (recordingStartTime || chunks in memory)` and
`hasRecording` when chunks exist in memory or a non-empty persisted
chunk list exists. -/
def getRecordingState (st : BgState) : Bool × Bool :=
  (st.isRecording &&
     (decide (st.storage.recordingStartTime.getD 0 ≠ 0) ||
      decide (0 < st.recordingChunks.length)),
   decide (0 < st.recordingChunks.length) ||
     (match st.storage.recordingChunks with
      | some l => decide (0 < l.length)
      | none => false))

/-- The `getRecordingData` message handler: with in-memory chunks, tag
the concatenated bytes with the preference-derived MIME type and report
data; otherwise report `hasData: false`. -/
def getRecordingData (st : BgState) : Option (String × List ℕ) :=
  if 0 < st.recordingChunks.length then
    some (mimeForFormat (formatFromPrefs st.storage.preferences),
          st.recordingChunks.flatten)
  else none

/-- The `chrome.runtime.onStartup` listener: reinflate the persisted
chunk snapshot, if any, into the in-memory chunk list. -/
def onStartup (st : BgState) : BgState :=
  match st.storage.recordingChunks with
  | some l => { st with recordingChunks := l }
  | none => st

/-! ### The format conversion utilities -/

/-- `targetFormat.toLowerCase()`. -/
def strLower (s : String) : String := String.mk (s.toList.map Char.toLower)

/-- `haystack.includes(needle)` on strings. -/
def strContains (haystack pat : String) : Bool :=
  hasSub pat.toList haystack.toList

/-- `convertAudioFormat`: return the blob unchanged when it already is in
the (webm/ogg) target container; convert to WAV for a `wav` target; for
`mp3` log a warning and convert to WAV as the fallback; return the blob
unchanged for anything else. Decoding of the compressed blob is supplied
by the host (`decode`). A blob is its MIME type paired with its bytes. -/
def convertAudioFormat (blob : String × List ℕ)
    (decode : List ℕ → AudioBuffer) (targetFormat : String) : String × List ℕ :=
  let format := strLower targetFormat
  if format = "webm" && strContains blob.1 "webm" then blob
  else if format = "ogg" && strContains blob.1 "ogg" then blob
  else if format = "wav" then ("audio/wav", convertToWav (decode blob.2))
  else if format = "mp3" then ("audio/wav", convertToWav (decode blob.2))
  else blob

/-! ### Concrete fixtures used by witnesses and counterexamples -/

/-- A two-channel, two-frame decoded buffer with integer-valued samples. -/
def bufEx : AudioBuffer := ⟨8000, 2, [[1, -1], [0, 2]]⟩

/-- A host that reports an "active stream" conflict on the first
`getMediaStreamId` attempt and a second failure on the retry. -/
def hostConflictTwice : ℕ → HostResult := fun n =>
  if n = 0 then .err "Cannot capture a tab with an active stream."
  else .err "second conflict"

/-- A stored preferences object selecting the wav container. -/
def prefsWav : Prefs := ⟨some "wav"⟩

/-- A storage area holding only a preferences object. -/
def storWithPrefs : Storage := { emptyStorage with preferences := some prefsWav }

/-- A fresh worker over a store holding only preferences. -/
def stClearEx : BgState := initialState storWithPrefs

/-- A capturing session (recorder and stream live) with no chunks yet. -/
def stStopEmpty : BgState :=
  { initialState emptyStorage with
      isRecording := true, mediaRecorder := true, currentStream := true }

/-- A persisted snapshot of two chunks plus a start time, with no
in-memory state. -/
def storSnapshot : Storage :=
  { emptyStorage with recordingChunks := some [[1, 2], [3]],
                      recordingStartTime := some 5 }

/-- A persisted snapshot whose chunk list is empty. -/
def storEmptySnapshot : Storage :=
  { emptyStorage with recordingChunks := some [],
                      recordingStartTime := some 5 }

/-- The state produced by a start command when `getUserMedia` is
unavailable in the service worker (the popup-recording fallback path). -/
def stFallback : BgState :=
  (startRecordingFromStreamId (initialState emptyStorage) "sid1" false true 0).1
/-! ### Helper lemmas about flattened range maps and byte lists -/

theorem flatRange_length {α : Type} (g : ℕ → List α) (C : ℕ)
    (h : ∀ j, (g j).length = C) (n : ℕ) :
    ((List.range n).flatMap g).length = n * C := by
  induction n with
  | zero => simp
  | succ m ih =>
      rw [List.range_succ, List.flatMap_append, List.length_append, ih]
      simp [h, Nat.succ_mul]

theorem flatRange_getD {α : Type} (g : ℕ → List α) (C : ℕ) (d : α)
    (h : ∀ j, (g j).length = C) (n i c : ℕ) (hi : i < n) (hc : c < C) :
    ((List.range n).flatMap g).getD (i * C + c) d = (g i).getD c d := by
  induction n with
  | zero => omega
  | succ m ih =>
      rw [List.range_succ, List.flatMap_append]
      rcases Nat.lt_or_ge i m with h1 | h1
      · rw [List.getD_append]
        · exact ih h1
        · rw [flatRange_length g C h m]
          calc i * C + c < i * C + C := by omega
            _ = (i + 1) * C := by ring
            _ ≤ m * C := Nat.mul_le_mul_right C h1
      · have him : i = m := by omega
        subst him
        have hlenr : ((List.range i).flatMap g).length = i * C :=
          flatRange_length g C h i
        rw [List.getD_append_right]
        · have hc2 : i * C + c - ((List.range i).flatMap g).length = c := by
            rw [hlenr]; omega
          rw [hc2]
          simp
        · rw [hlenr]; omega

theorem getD_map_lt {α β : Type} (f : α → β) (l : List α) (n : ℕ)
    (hn : n < l.length) (d : β) (d0 : α) :
    (l.map f).getD n d = f (l.getD n d0) := by
  rw [List.getD_eq_getElem?_getD, List.getD_eq_getElem?_getD, List.getElem?_map,
    List.getElem?_eq_getElem hn]
  simp

theorem flatMap_pair_length {α : Type} (enc : α → List ℕ)
    (h : ∀ z, (enc z).length = 2) (l : List α) :
    (l.flatMap enc).length = 2 * l.length := by
  induction l with
  | nil => simp
  | cons a t ih => simp [List.flatMap_cons, ih, h a]; ring

theorem interleave_length (channels : List (List ℚ)) (L : ℕ) :
    (interleave channels L).length = L * channels.length := by
  exact flatRange_length _ _ (fun j => by simp) L

theorem wavHeader_length (numberOfChannels sampleRate dataSize : ℕ) :
    (wavHeader numberOfChannels sampleRate dataSize).length = 44 := by
  simp [wavHeader, u16le, u32le]

theorem convertToWav_split (buf : AudioBuffer) :
    (convertToWav buf).drop 44 =
      ((interleave buf.channels buf.length).map quantize16).flatMap i16le ∧
    (convertToWav buf).take 44 =
      wavHeader buf.channels.length buf.sampleRate
        (((interleave buf.channels buf.length).map quantize16).length * 2) := by
  unfold convertToWav
  rw [show (44 : ℕ) = (wavHeader buf.channels.length buf.sampleRate
      (((interleave buf.channels buf.length).map quantize16).length * 2)).length
    from (wavHeader_length _ _ _).symm]
  exact ⟨List.drop_left _ _, List.take_left _ _⟩


theorem i16le_length (z : ℤ) : (i16le z).length = 2 := rfl

theorem clamp_mem (x : ℚ) : -1 ≤ clamp x ∧ clamp x ≤ 1 :=
  ⟨le_max_left _ _, max_le (by norm_num) (min_le_left _ _)⟩

theorem clamp_of_le_neg_one (x : ℚ) (h : x ≤ -1) : clamp x = -1 := by
  unfold clamp
  rw [min_eq_right (le_trans h (by norm_num)), max_eq_left h]

theorem clamp_of_one_le (x : ℚ) (h : 1 ≤ x) : clamp x = 1 := by
  unfold clamp
  rw [min_eq_left h, max_eq_right (by norm_num)]

theorem quantize16_eq_of_neg (x : ℚ) (h : clamp x < 0) :
    quantize16 x = ⌈clamp x * 32768⌉ := by
  unfold quantize16 truncToZero
  rw [if_pos h, if_pos (mul_neg_of_neg_of_pos h (by norm_num))]

theorem quantize16_eq_of_nonneg (x : ℚ) (h : 0 ≤ clamp x) :
    quantize16 x = ⌊clamp x * 32767⌋ := by
  unfold quantize16 truncToZero
  rw [if_neg (not_lt.mpr h), if_neg (not_lt.mpr (mul_nonneg h (by norm_num)))]

theorem quantize16_bounds (x : ℚ) :
    -32768 ≤ quantize16 x ∧ quantize16 x ≤ 32767 := by
  rcases lt_or_ge (clamp x) 0 with h | h
  · rw [quantize16_eq_of_neg x h]
    constructor
    · have h1 : ((-32768 : ℤ) : ℚ) ≤ clamp x * 32768 := by
        have h2 := (clamp_mem x).1
        push_cast
        nlinarith
      calc (-32768 : ℤ) = ⌈((-32768 : ℤ) : ℚ)⌉ := (Int.ceil_intCast _).symm
        _ ≤ ⌈clamp x * 32768⌉ := Int.ceil_mono h1
    · have h2 : ⌈clamp x * 32768⌉ ≤ 0 := by
        rw [Int.ceil_le]
        push_cast
        nlinarith [le_of_lt h]
      omega
  · rw [quantize16_eq_of_nonneg x h]
    constructor
    · have h1 : (0 : ℤ) ≤ ⌊clamp x * 32767⌋ :=
        Int.floor_nonneg.mpr (mul_nonneg h (by norm_num))
      omega
    · have h1 : clamp x * 32767 ≤ ((32767 : ℤ) : ℚ) := by
        have h2 := (clamp_mem x).2
        push_cast
        nlinarith
      calc ⌊clamp x * 32767⌋ ≤ ⌊((32767 : ℤ) : ℚ)⌋ := Int.floor_mono h1
        _ = 32767 := Int.floor_intCast _

theorem quantize16_of_le_neg_one (x : ℚ) (h : x ≤ -1) : quantize16 x = -32768 := by
  have hc := clamp_of_le_neg_one x h
  rw [quantize16_eq_of_neg x (by rw [hc]; norm_num), hc]
  rw [show (-1 : ℚ) * 32768 = ((-32768 : ℤ) : ℚ) by norm_num, Int.ceil_intCast]

theorem quantize16_of_one_le (x : ℚ) (h : 1 ≤ x) : quantize16 x = 32767 := by
  have hc := clamp_of_one_le x h
  rw [quantize16_eq_of_nonneg x (by rw [hc]; norm_num), hc]
  rw [show (1 : ℚ) * 32767 = ((32767 : ℤ) : ℚ) by norm_num, Int.floor_intCast]

theorem wavHeader_explicit (a b d : ℕ) :
    wavHeader a b d =
      [82, 73, 70, 70,
       (36 + d) % 256, (36 + d) / 256 % 256,
       (36 + d) / 65536 % 256, (36 + d) / 16777216 % 256,
       87, 65, 86, 69, 102, 109, 116, 32,
       16, 0, 0, 0,
       1, 0,
       a % 256, a / 256 % 256,
       b % 256, b / 256 % 256, b / 65536 % 256, b / 16777216 % 256,
       b * a * 2 % 256, b * a * 2 / 256 % 256,
       b * a * 2 / 65536 % 256, b * a * 2 / 16777216 % 256,
       a * 2 % 256, a * 2 / 256 % 256,
       16, 0,
       100, 97, 116, 97,
       d % 256, d / 256 % 256, d / 65536 % 256, d / 16777216 % 256] := rfl

set_option maxHeartbeats 4000000 in
theorem wavHeader_fields (a b d : ℕ) (rest : List ℕ)
    (ha : a * 2 < 65536) (hb : b < 4294967296)
    (hbr : b * a * 2 < 4294967296) (hd : 36 + d < 4294967296) :
    (wavHeader a b d ++ rest).take 4 = [82, 73, 70, 70] ∧
    readU32le (wavHeader a b d ++ rest) 4 = 36 + d ∧
    ((wavHeader a b d ++ rest).drop 8).take 4 = [87, 65, 86, 69] ∧
    ((wavHeader a b d ++ rest).drop 12).take 4 = [102, 109, 116, 32] ∧
    readU32le (wavHeader a b d ++ rest) 16 = 16 ∧
    readU16le (wavHeader a b d ++ rest) 20 = 1 ∧
    readU16le (wavHeader a b d ++ rest) 22 = a ∧
    readU32le (wavHeader a b d ++ rest) 24 = b ∧
    readU32le (wavHeader a b d ++ rest) 28 = b * a * 2 ∧
    readU16le (wavHeader a b d ++ rest) 32 = a * 2 ∧
    readU16le (wavHeader a b d ++ rest) 34 = 16 ∧
    ((wavHeader a b d ++ rest).drop 36).take 4 = [100, 97, 116, 97] ∧
    readU32le (wavHeader a b d ++ rest) 40 = d := by
  rw [wavHeader_explicit]
  refine ⟨rfl, ?_, rfl, rfl, rfl, rfl, ?_, ?_, ?_, ?_, rfl, rfl, ?_⟩
  · show (36 + d) % 256 + 256 * ((36 + d) / 256 % 256) +
        65536 * ((36 + d) / 65536 % 256) +
        16777216 * ((36 + d) / 16777216 % 256) = 36 + d
    omega
  · show a % 256 + 256 * (a / 256 % 256) = a
    omega
  · show b % 256 + 256 * (b / 256 % 256) + 65536 * (b / 65536 % 256) +
        16777216 * (b / 16777216 % 256) = b
    omega
  · show b * a * 2 % 256 + 256 * (b * a * 2 / 256 % 256) +
        65536 * (b * a * 2 / 65536 % 256) +
        16777216 * (b * a * 2 / 16777216 % 256) = b * a * 2
    omega
  · show a * 2 % 256 + 256 * (a * 2 / 256 % 256) = a * 2
    omega
  · show d % 256 + 256 * (d / 256 % 256) + 65536 * (d / 65536 % 256) +
        16777216 * (d / 16777216 % 256) = d
    omega

/-! ### The claims -/

/-- Claim C4: For every float input sample x, the 16-bit quantization of
the WAV encoder first clamps x to [-1, 1], then scales asymmetrically:
clamped negative values are multiplied by 32768 and clamped non-negative
values by 32767, so every emitted integer sample lies in [-32768, 32767],
with -1 mapping to -32768 and +1 mapping to 32767. -/
theorem quantize16_clamp_scale (x : ℚ) :
    (-32768 ≤ quantize16 x ∧ quantize16 x ≤ 32767) ∧
    (-1 ≤ clamp x ∧ clamp x ≤ 1) ∧
    (clamp x < 0 → quantize16 x = truncToZero (clamp x * 32768)) ∧
    (0 ≤ clamp x → quantize16 x = truncToZero (clamp x * 32767)) ∧
    (x ≤ -1 → quantize16 x = -32768) ∧
    (1 ≤ x → quantize16 x = 32767) ∧
    quantize16 (-1) = -32768 ∧ quantize16 1 = 32767 ∧
    (∀ buf : AudioBuffer,
      ∀ z ∈ (interleave buf.channels buf.length).map quantize16,
        -32768 ≤ z ∧ z ≤ 32767) := by
  refine ⟨quantize16_bounds x, clamp_mem x, ?_, ?_,
    quantize16_of_le_neg_one x, quantize16_of_one_le x,
    quantize16_of_le_neg_one (-1) (by norm_num),
    quantize16_of_one_le 1 (by norm_num), ?_⟩
  · intro h
    unfold quantize16
    rw [if_pos h]
  · intro h
    unfold quantize16
    rw [if_neg (not_lt.mpr h)]
  · intro buf z hz
    rcases List.mem_map.mp hz with ⟨y, hy, rfl⟩
    exact quantize16_bounds y

/-- Witness for C4 at the concrete sample -2: the clamped-and-scaled
output is the negative full-scale value. -/
theorem quantize16_clamp_scale_witness : quantize16 (-2) = -32768 :=
  (quantize16_clamp_scale (-2)).2.2.2.2.1 (by norm_num)

/-- Claim C1: For every decoded audio buffer with C channels and L frames,
the WAV encoder writes the PCM data channel-minor: for each frame i and
channel c, the interleaved sample at position i * C + c is the quantized
sample of channel c at frame i, and the bytes after the 44-byte header are
exactly the flattened little-endian encoding of that interleaved
sequence — no reordering, sorting, or channel-major grouping. -/
theorem wav_channel_minor_order (buf : AudioBuffer) (C L i c : ℕ)
    (hC : buf.channels.length = C) (hL : buf.length = L)
    (hi : i < L) (hc : c < C) :
    (convertToWav buf).drop 44 =
      ((interleave buf.channels L).map quantize16).flatMap i16le ∧
    ((interleave buf.channels L).map quantize16).getD (i * C + c) 0 =
      quantize16 ((buf.channels.getD c []).getD i 0) := by
  subst hC hL
  refine ⟨(convertToWav_split buf).1, ?_⟩
  have hidx : i * buf.channels.length + c <
      (interleave buf.channels buf.length).length := by
    rw [interleave_length]
    calc i * buf.channels.length + c
        < i * buf.channels.length + buf.channels.length := by omega
      _ = (i + 1) * buf.channels.length := by ring
      _ ≤ buf.length * buf.channels.length :=
          Nat.mul_le_mul_right _ hi
  rw [getD_map_lt quantize16 _ _ hidx 0 0]
  congr 1
  unfold interleave
  rw [flatRange_getD _ buf.channels.length (0 : ℚ)
    (fun j => by simp) buf.length i c hi hc]
  exact getD_map_lt _ buf.channels c hc 0 []

/-- Witness for C1 on the two-channel two-frame buffer `bufEx`, at frame 1
and channel 1: the sample at interleaved position 1 * 2 + 1 is the
quantized channel-1 sample of frame 1. -/
theorem wav_channel_minor_order_witness :
    ((interleave bufEx.channels 2).map quantize16).getD (1 * 2 + 1) 0 =
      quantize16 ((bufEx.channels.getD 1 []).getD 1 0) :=
  (wav_channel_minor_order bufEx 2 2 1 1 rfl rfl (by decide) (by decide)).2

/-- Claim C3: For every decoded audio buffer, the WAV encoder output
begins with a 44-byte header laid out exactly as: bytes 0-3 RIFF; bytes
4-7 little-endian uint32 equal to 36 + data size; bytes 8-11 WAVE; bytes
12-15 fmt-space; uint32 16 (fmt sub-chunk size); uint16 1 (PCM format
code); uint16 channel count; uint32 sample rate; uint32 byte rate =
sampleRate x blockAlign; uint16 block align = channelCount x
bytesPerSample; uint16 bit depth 16; bytes 36-39 data; uint32 data size =
2 x channelCount x frameCount; followed by exactly that many bytes of
little-endian signed 16-bit PCM. -/
theorem convertToWav_header_layout (buf : AudioBuffer) (C L : ℕ)
    (hC : buf.channels.length = C) (hL : buf.length = L)
    (hC16 : C * 2 < 65536) (hsr : buf.sampleRate < 4294967296)
    (hbr : buf.sampleRate * C * 2 < 4294967296)
    (hds : 36 + 2 * C * L < 4294967296) :
    (convertToWav buf).length = 44 + 2 * C * L ∧
    (convertToWav buf).take 4 = [82, 73, 70, 70] ∧
    readU32le (convertToWav buf) 4 = 36 + 2 * C * L ∧
    ((convertToWav buf).drop 8).take 4 = [87, 65, 86, 69] ∧
    ((convertToWav buf).drop 12).take 4 = [102, 109, 116, 32] ∧
    readU32le (convertToWav buf) 16 = 16 ∧
    readU16le (convertToWav buf) 20 = 1 ∧
    readU16le (convertToWav buf) 22 = C ∧
    readU32le (convertToWav buf) 24 = buf.sampleRate ∧
    readU32le (convertToWav buf) 28 = buf.sampleRate * C * 2 ∧
    readU16le (convertToWav buf) 32 = C * 2 ∧
    readU16le (convertToWav buf) 34 = 16 ∧
    ((convertToWav buf).drop 36).take 4 = [100, 97, 116, 97] ∧
    readU32le (convertToWav buf) 40 = 2 * C * L ∧
    (convertToWav buf).drop 44 =
      ((interleave buf.channels L).map quantize16).flatMap i16le ∧
    ((convertToWav buf).drop 44).length = 2 * C * L ∧
    (∀ z ∈ (interleave buf.channels L).map quantize16,
      -32768 ≤ z ∧ z ≤ 32767) := by
  subst hC hL
  have hpcm : ((interleave buf.channels buf.length).map quantize16).length * 2 =
      2 * buf.channels.length * buf.length := by
    rw [List.length_map, interleave_length]; ring
  have hcw : convertToWav buf =
      wavHeader buf.channels.length buf.sampleRate
          (2 * buf.channels.length * buf.length) ++
        ((interleave buf.channels buf.length).map quantize16).flatMap i16le := by
    unfold convertToWav
    rw [hpcm]
  have hdata : (((interleave buf.channels buf.length).map quantize16).flatMap
      i16le).length = 2 * buf.channels.length * buf.length := by
    rw [flatMap_pair_length i16le i16le_length, List.length_map,
      interleave_length]
    ring
  obtain ⟨f1, f2, f3, f4, f5, f6, f7, f8, f9, f10, f11, f12, f13⟩ :=
    wavHeader_fields buf.channels.length buf.sampleRate
      (2 * buf.channels.length * buf.length)
      (((interleave buf.channels buf.length).map quantize16).flatMap i16le)
      hC16 hsr hbr hds
  rw [hcw]
  refine ⟨?_, f1, f2, f3, f4, f5, f6, f7, f8, f9, f10, f11, f12, f13, ?_, ?_, ?_⟩
  · rw [List.length_append, wavHeader_length, hdata]
  · rw [show (44 : ℕ) = (wavHeader buf.channels.length buf.sampleRate
        (2 * buf.channels.length * buf.length)).length
      from (wavHeader_length _ _ _).symm, List.drop_left]
  · rw [show (44 : ℕ) = (wavHeader buf.channels.length buf.sampleRate
        (2 * buf.channels.length * buf.length)).length
      from (wavHeader_length _ _ _).symm, List.drop_left, hdata]
  · intro z hz
    rcases List.mem_map.mp hz with ⟨y, hy, rfl⟩
    exact quantize16_bounds y

/-- Witness for C3 on the concrete buffer `bufEx`: the channel-count
field at byte offset 22 of the emitted WAV bytes decodes to 2. -/
theorem convertToWav_header_layout_witness :
    readU16le (convertToWav bufEx) 22 = 2 :=
  (convertToWav_header_layout bufEx 2 2 rfl rfl (by decide) (by decide)
      (by decide) (by decide)).2.2.2.2.2.2.2.1

/-- Claim C2: When stream acquisition fails with an error whose message
contains "active stream", the acquirer waits approximately 500 ms and
retries exactly once; if the retry fails (for any reason, including a
second conflict) the error of the retry is surfaced to the caller and no
third attempt is ever made; any first failure not matching "active
stream" is surfaced immediately with no retry. The first attempt itself
is preceded by an approximately 100 ms grace delay. -/
theorem captureTabAudio_retry_once (host : ℕ → HostResult) :
    (captureTabAudio host).attemptsMade ≤ 2 ∧
    (captureTabAudio host).delays.headD 0 = 100 ∧
    (∀ m1, host 0 = .err m1 → containsActiveStream m1 = true →
      (captureTabAudio host).attemptsMade = 2 ∧
      (captureTabAudio host).delays = [100, 500] ∧
      ∀ m2, host 1 = .err m2 →
        (captureTabAudio host).result = .error m2) ∧
    (∀ m1, host 0 = .err m1 → containsActiveStream m1 = false →
      (captureTabAudio host).attemptsMade = 1 ∧
      (captureTabAudio host).result = .error m1) := by
  rcases h0 : host 0 with m1 | _ | id
  · by_cases hact : containsActiveStream m1 = true
    · rcases h1 : host 1 with m2 | _ | id2 <;>
        simp [captureTabAudio, h0, h1, hact]
    · simp only [Bool.not_eq_true] at hact
      simp [captureTabAudio, h0, hact]
  · simp [captureTabAudio, h0]
  · simp [captureTabAudio, h0]

/-- Witness for C2: with a host that reports an active-stream conflict
and then a second failure, exactly two attempts are made and the second
failure is surfaced. -/
theorem captureTabAudio_retry_once_witness :
    (captureTabAudio hostConflictTwice).attemptsMade = 2 ∧
    (captureTabAudio hostConflictTwice).result = .error "second conflict" := by
  have h := (captureTabAudio_retry_once hostConflictTwice).2.2.1
    "Cannot capture a tab with an active stream." rfl (by decide)
  exact ⟨h.1, h.2.2 "second conflict" rfl⟩

/-- Claim C5: For every requested container format that the chunked
recorder does not natively support (in particular mp3, and wav at record
time), the system silently substitutes WAV output rather than failing:
recording proceeds under the webm container without an error, conversion
of an mp3 or wav request yields a well-formed WAV artifact tagged
audio/wav, and no unsupported-format error exists on any path. -/
theorem unsupported_format_wav_fallback (blob : String × List ℕ)
    (decode : List ℕ → AudioBuffer) (st : BgState) (sid : String)
    (gumAvailable gumOk : Bool) (now : ℕ) :
    convertAudioFormat blob decode "mp3" =
      ("audio/wav", convertToWav (decode blob.2)) ∧
    convertAudioFormat blob decode "wav" =
      ("audio/wav", convertToWav (decode blob.2)) ∧
    mimeForFormat "mp3" = "audio/webm" ∧
    mimeForFormat "wav" = "audio/webm" ∧
    (startRecordingFromStreamId st sid gumAvailable gumOk now).2 =
      Except.ok () ∧
    (convertToWav (decode blob.2)).take 4 = [82, 73, 70, 70] := by
  refine ⟨?_, ?_, by decide, by decide, ?_, ?_⟩
  · simp [convertAudioFormat, show strLower "mp3" = "mp3" from rfl]
  · simp [convertAudioFormat, show strLower "wav" = "wav" from rfl]
  · cases gumAvailable <;> cases gumOk <;> simp [startRecordingFromStreamId]
  · rfl

/-- Claim C6: During stop-and-collect with an active recorder, if
concatenating the chunk sequence yields a zero-length buffer, the
concatenation is retried exactly once from the snapshot copy of the
chunks taken before the in-memory sequence was cleared (the resolved
payload is the concatenation of the pre-stop chunk list even though the
in-memory list is cleared); if the retry source is also empty, the stop
command resolves successfully with a null payload rather than an error
response. -/
theorem stop_concat_retry_fallback (st : BgState)
    (hrec : st.mediaRecorder = true) (hflag : st.isRecording = true) :
    (handleStopCapture st).1.recordingChunks = [] ∧
    (0 < st.recordingChunks.flatten.length →
      (handleStopCapture st).2 =
        some (mimeForFormat (formatFromPrefs st.storage.preferences),
              st.recordingChunks.flatten)) ∧
    (st.recordingChunks.flatten.length = 0 → st.recordingChunks ≠ [] →
      (handleStopCapture st).2 =
        some (mimeForFormat (formatFromPrefs st.storage.preferences),
              st.recordingChunks.flatten)) ∧
    (st.recordingChunks = [] →
      (stopCaptureMessage st).2.1 = true ∧
      (stopCaptureMessage st).2.2 = none) := by
  have hcond : (st.mediaRecorder && st.isRecording) = true := by
    rw [hrec, hflag]; rfl
  refine ⟨?_, ?_, ?_, ?_⟩
  · unfold handleStopCapture
    rw [if_pos hcond]
  · intro h
    unfold handleStopCapture
    rw [if_pos hcond]
    dsimp only
    rw [if_pos h]
  · intro h0 hne
    unfold handleStopCapture
    rw [if_pos hcond]
    simp only [if_neg (by omega : ¬ 0 < st.recordingChunks.flatten.length),
      if_pos (List.length_pos.mpr hne)]
  · intro he
    unfold stopCaptureMessage handleStopCapture
    rw [if_pos hcond]
    simp [he]

/-- Witness for C6: stopping a capturing session that has no chunks at
all resolves with success and a null payload. -/
theorem stop_concat_retry_fallback_witness :
    (stopCaptureMessage stStopEmpty).2.1 = true ∧
    (stopCaptureMessage stStopEmpty).2.2 = none :=
  (stop_concat_retry_fallback stStopEmpty rfl rfl).2.2.2 rfl

/-- Counterexample to claim C7 as stated: the `preferences` key is not
among the keys removed by the clear-recording handler — after clearing a
state whose store holds a preferences object, that object is still
present, so the five keys are not deleted together. -/
theorem clear_keeps_preferences_cex :
    (clearRecording stClearEx).1.storage.preferences = some prefsWav := rfl

/-- Claim C7 as amended: on every stop-and-collect and on every
clear-recording command, the four persisted recording-session keys
recordingStreamId, recordingTabId, recordingStartTime and recordingChunks
are deleted together from the key-value store; the preferences key and
all other persisted state are left unmodified. -/
theorem recording_keys_removed (st : BgState) :
    ((clearRecording st).1.storage.recordingStreamId = none ∧
     (clearRecording st).1.storage.recordingTabId = none ∧
     (clearRecording st).1.storage.recordingStartTime = none ∧
     (clearRecording st).1.storage.recordingChunks = none ∧
     (clearRecording st).1.storage.preferences = st.storage.preferences ∧
     (clearRecording st).1.storage.other = st.storage.other) ∧
    ((handleStopCapture st).1.storage.recordingStreamId = none ∧
     (handleStopCapture st).1.storage.recordingTabId = none ∧
     (handleStopCapture st).1.storage.recordingStartTime = none ∧
     (handleStopCapture st).1.storage.recordingChunks = none ∧
     (handleStopCapture st).1.storage.preferences = st.storage.preferences ∧
     (handleStopCapture st).1.storage.other = st.storage.other) := by
  refine ⟨?_, ?_⟩
  · unfold clearRecording
    dsimp only
    split
    · exact ⟨rfl, rfl, rfl, rfl, rfl, rfl⟩
    · exact ⟨rfl, rfl, rfl, rfl, rfl, rfl⟩
  · unfold handleStopCapture
    split
    · exact ⟨rfl, rfl, rfl, rfl, rfl, rfl⟩
    · split
      · exact ⟨rfl, rfl, rfl, rfl, rfl, rfl⟩
      · exact ⟨rfl, rfl, rfl, rfl, rfl, rfl⟩

/-- Counterexample to claim C8 as stated: starting a recording when
getUserMedia is unavailable in the worker leaves `isRecording` true while
no stream is held, violating the claimed equivalence between a non-null
stream reference and `isRecording`. -/
theorem fallback_isRecording_without_stream_cex :
    stFallback.isRecording = true ∧ stFallback.currentStream = false :=
  ⟨rfl, rfl⟩

/-- Claim C8 as amended: on the background recording path (getUserMedia
available and succeeding) a start leaves the session holding a live
stream with `isRecording` true; stop-and-collect always leaves
`isRecording` false, releasing the stream when the recorder was active;
clear-recording always drops the stream, but resets `isRecording` (and
the recorder) only when a recorder was present with `isRecording` set;
the fallback paths — getUserMedia unavailable or failing — set
`isRecording` true while holding no stream (recording is delegated to
the popup), and from that recorder-less state even clear-recording
leaves `isRecording` true, so the claimed equivalence fails on the
fallback paths. -/
theorem stream_flag_lifecycle (st : BgState) (sid : String) (now : ℕ) :
    ((startRecordingFromStreamId st sid true true now).1.isRecording = true ∧
     (startRecordingFromStreamId st sid true true now).1.currentStream = true) ∧
    ((startRecordingFromStreamId st sid false true now).1.isRecording = true ∧
     (startRecordingFromStreamId st sid false true now).1.currentStream =
       st.currentStream) ∧
    ((startRecordingFromStreamId st sid true false now).1.isRecording = true ∧
     (startRecordingFromStreamId st sid true false now).1.currentStream =
       st.currentStream) ∧
    ((handleStopCapture st).1.isRecording = false ∧
     (handleStopCapture st).1.currentStream =
       (if st.mediaRecorder && st.isRecording then false
        else st.currentStream)) ∧
    ((clearRecording st).1.currentStream = false ∧
     (clearRecording st).1.isRecording =
       (if st.mediaRecorder && st.isRecording then false
        else st.isRecording) ∧
     (clearRecording st).1.mediaRecorder =
       (if st.mediaRecorder && st.isRecording then false
        else st.mediaRecorder)) ∧
    ((clearRecording stFallback).1.isRecording = true ∧
     (clearRecording stFallback).1.currentStream = false) := by
  refine ⟨⟨rfl, rfl⟩, ⟨rfl, rfl⟩, ⟨rfl, rfl⟩, ?_, ?_, ⟨rfl, rfl⟩⟩
  · unfold handleStopCapture
    split
    · exact ⟨rfl, rfl⟩
    · dsimp only
      split
      · exact ⟨rfl, rfl⟩
      · exact ⟨rfl, rfl⟩
  · unfold clearRecording
    dsimp only
    split
    · exact ⟨rfl, rfl, rfl⟩
    · exact ⟨rfl, rfl, rfl⟩

/-- Counterexample to claim C9 as stated: a persisted snapshot whose
recordingChunks value is the empty list is a byte-array list, and the
fresh session reconstructs it exactly, yet get-recording-state reports
hasRecording false, not true. -/
theorem restart_empty_snapshot_cex :
    storEmptySnapshot.recordingChunks = some [] ∧
    (getRecordingState (onStartup (initialState storEmptySnapshot))).2 = false :=
  ⟨rfl, rfl⟩

/-- Claim C9 as amended: for every persisted snapshot holding a
recordingChunks byte-array list and no in-memory state, a freshly started
session reconstructs an in-memory chunk sequence whose ordered byte
contents are identical to the persisted list; when that list is
non-empty, a subsequent get-recording-state query reports
hasRecording true (for the empty list it reports false). -/
theorem restart_recovery_nonempty (s : Storage) (l : List (List ℕ))
    (h : s.recordingChunks = some l) :
    (onStartup (initialState s)).recordingChunks = l ∧
    (l ≠ [] → (getRecordingState (onStartup (initialState s))).2 = true) := by
  constructor
  · unfold onStartup initialState
    rw [h]
  · intro hne
    unfold getRecordingState onStartup initialState
    rw [h]
    simp [h, List.length_pos.mpr hne]

/-- Witness for C9 (amended) on a concrete two-chunk snapshot: the
reconstructed in-memory sequence equals the persisted list and the state
query reports a recording. -/
theorem restart_recovery_nonempty_witness :
    (onStartup (initialState storSnapshot)).recordingChunks = [[1, 2], [3]] ∧
    (getRecordingState (onStartup (initialState storSnapshot))).2 = true := by
  have h := restart_recovery_nonempty storSnapshot [[1, 2], [3]] rfl
  exact ⟨h.1, h.2 (by decide)⟩

/-- Claim C10: For every stored format preference, the audio blob
produced by get-recording-data and by stop-and-collect is tagged with
MIME type audio/ogg when the preference is ogg and audio/webm in every
other case (including preferences wav, mp3, and an absent preference); it
is never tagged audio/wav or audio/mp3. -/
theorem mime_tag_policy (p : Option Prefs) (st : BgState)
    (hp : st.storage.preferences = p) :
    (mimeForFormat (formatFromPrefs p) = "audio/ogg" ↔
      ∃ pr, p = some pr ∧ pr.format = some "ogg") ∧
    (mimeForFormat (formatFromPrefs p) = "audio/ogg" ∨
     mimeForFormat (formatFromPrefs p) = "audio/webm") ∧
    mimeForFormat (formatFromPrefs p) ≠ "audio/wav" ∧
    mimeForFormat (formatFromPrefs p) ≠ "audio/mp3" ∧
    (∀ m bs, getRecordingData st = some (m, bs) →
      m = mimeForFormat (formatFromPrefs p)) ∧
    (∀ m bs, (handleStopCapture st).2 = some (m, bs) →
      m = mimeForFormat (formatFromPrefs p)) := by
  subst hp
  have hmain : ∀ q : Option Prefs,
      (mimeForFormat (formatFromPrefs q) = "audio/ogg" ↔
        ∃ pr, q = some pr ∧ pr.format = some "ogg") ∧
      (mimeForFormat (formatFromPrefs q) = "audio/ogg" ∨
       mimeForFormat (formatFromPrefs q) = "audio/webm") ∧
      mimeForFormat (formatFromPrefs q) ≠ "audio/wav" ∧
      mimeForFormat (formatFromPrefs q) ≠ "audio/mp3" := by
    intro q
    rcases q with _ | pr
    · simp [formatFromPrefs, mimeForFormat]
    · rcases pr with ⟨_ | f⟩
      · simp [formatFromPrefs, mimeForFormat]
      · by_cases hf0 : f = ""
        · subst hf0
          simp [formatFromPrefs, mimeForFormat]
        · by_cases hfo : f = "ogg"
          · subst hfo
            simp [formatFromPrefs, mimeForFormat]
          · by_cases hfw : f = "webm"
            · subst hfw
              simp [formatFromPrefs, mimeForFormat]
            · simp [formatFromPrefs, mimeForFormat, hf0, hfo, hfw]
  refine ⟨(hmain _).1, (hmain _).2.1, (hmain _).2.2.1, (hmain _).2.2.2, ?_, ?_⟩
  · intro m bs hm
    unfold getRecordingData at hm
    by_cases hchunks : 0 < st.recordingChunks.length
    · rw [if_pos hchunks] at hm
      simp only [Option.some_inj, Prod.mk.injEq] at hm
      exact hm.1.symm
    · rw [if_neg hchunks] at hm
      exact absurd hm (by simp)
  · intro m bs hm
    unfold handleStopCapture at hm
    split at hm
    · dsimp only at hm
      split at hm
      · simp only [Option.some_inj, Prod.mk.injEq] at hm
        exact hm.1.symm
      · split at hm
        · simp only [Option.some_inj, Prod.mk.injEq] at hm
          exact hm.1.symm
        · exact absurd hm (by simp)
    · split at hm
      · simp only [Option.some_inj, Prod.mk.injEq] at hm
        exact hm.1.symm
      · exact absurd hm (by simp)

/-- Witness for C10 at the stored wav preference: the derived MIME tag is
not audio/wav. -/
theorem mime_tag_policy_witness :
    mimeForFormat (formatFromPrefs (some prefsWav)) ≠ "audio/wav" :=
  (mime_tag_policy (some prefsWav) stClearEx rfl).2.2.1
